import Mathlib

/-!
Verification development for the robotstxt library (singleheader/demo.cpp,
namespace `googlebot`).  Strings are modelled as lists of byte values
(`List Nat`, each element a byte 0..255); machine `int` values (match
priorities) are modelled as `Int`.  Every definition below is a direct
shallow embedding of the corresponding C++ function; the source function is
named in each doc comment.
-/

set_option maxRecDepth 10000

/-- Byte list for an ASCII string literal (test inputs only). -/
def bytes (s : String) : List Nat :=
  s.data.map Char.toNat

/-- `AsciiIsAlpha` from demo.cpp. -/
def asciiIsAlpha (c : Nat) : Bool :=
  (97 ≤ c && c ≤ 122) || (65 ≤ c && c ≤ 90)

/-- `AsciiIsXDigit` from demo.cpp. -/
def asciiIsXDigit (c : Nat) : Bool :=
  (48 ≤ c && c ≤ 57) || (97 ≤ c && c ≤ 102) || (65 ≤ c && c ≤ 70)

/-- `AsciiIsLower` from demo.cpp. -/
def asciiIsLower (c : Nat) : Bool :=
  97 ≤ c && c ≤ 122

/-- `AsciiToUpper` from demo.cpp. -/
def asciiToUpper (c : Nat) : Nat :=
  if 97 ≤ c && c ≤ 122 then c - 97 + 65 else c

/-- `AsciiToLower` from demo.cpp. -/
def asciiToLower (c : Nat) : Nat :=
  if 65 ≤ c && c ≤ 90 then c - 65 + 97 else c

/-- `AsciiIsSpace` from demo.cpp: SP HT LF CR FF VT (the same set as C
`isspace` in the default locale). -/
def asciiIsSpace (c : Nat) : Bool :=
  c == 32 || c == 9 || c == 10 || c == 13 || c == 12 || c == 11

/-- `StripAsciiWhitespace` from demo.cpp. -/
def stripAsciiWhitespace (s : List Nat) : List Nat :=
  ((s.dropWhile asciiIsSpace).reverse.dropWhile asciiIsSpace).reverse

/-- `StartsWithIgnoreCase` from demo.cpp. -/
def startsWithIgnoreCase (s pre : List Nat) : Bool :=
  decide (pre.length ≤ s.length) &&
    ((s.take pre.length).zip pre).all (fun p => asciiToLower p.1 == asciiToLower p.2)

/-- `EqualsIgnoreCase` from demo.cpp. -/
def equalsIgnoreCase (a b : List Nat) : Bool :=
  a.length == b.length &&
    (a.zip b).all (fun p => asciiToLower p.1 == asciiToLower p.2)

/-- `HexDigitValue` from demo.cpp (the C version returns -1 for a
non-hex-digit; we return `none`). -/
def hexDigitValue (c : Nat) : Option Nat :=
  if 48 ≤ c && c ≤ 57 then some (c - 48)
  else if 65 ≤ c && c ≤ 70 then some (c - 65 + 10)
  else if 97 ≤ c && c ≤ 102 then some (c - 97 + 10)
  else none

/-- `DecodePercentOrChar` from demo.cpp, reformulated on the list remainder
`s.drop pos`: a `%` followed by two hex digits (which in index terms is the
source's `pos + 2 < s.size()` bounds check) decodes to one byte with advance
3, otherwise the head byte is taken literally with advance 1.  The source
never calls it at an out-of-range position; the `[]` case is unreachable. -/
def decodePercentOrChar : List Nat → Nat × Nat
  | 37 :: a :: b :: _ =>
    match hexDigitValue a, hexDigitValue b with
    | some hi, some lo => (16 * hi + lo, 3)
    | _, _ => (37, 1)
  | c :: _ => (c, 1)
  | [] => (0, 1)

/-- The inner position-filtering loop of `RobotsMatchStrategy::Matches`
(demo.cpp): keep the positions whose decoded path byte equals the decoded
pattern byte `c`, each advanced by its own decode width. -/
def advancePositions (path : List Nat) (posList : List Nat) (c : Nat) : List Nat :=
  posList.filterMap (fun p =>
    if p < path.length then
      let d := decodePercentOrChar (path.drop p)
      if d.1 == c then some (p + d.2) else none
    else none)

/-- Main loop of `RobotsMatchStrategy::Matches` (demo.cpp), structurally
recursive on the remaining pattern.  `posList` is the sorted list of path
positions consistent with the pattern consumed so far (the source's `pos[]`
array, always nonempty on entry).  The `37 :: a :: b :: _` case with two hex
digits is the source's `DecodePercentOrChar` hit on the pattern side
(advance 3); the non-hex `%` falls through to a literal one-byte step. -/
def matchesAux (path : List Nat) : List Nat → List Nat → Bool
  | [], _ => true
  | [36], posList => posList.getLastD 0 == path.length
  | 42 :: pat, posList =>
    let p0 := posList.headD 0
    matchesAux path pat (List.range' p0 (path.length + 1 - p0))
  | 37 :: a :: b :: pat, posList =>
    match hexDigitValue a, hexDigitValue b with
    | some hi, some lo =>
      let np := advancePositions path posList (16 * hi + lo)
      if np.isEmpty then false else matchesAux path pat np
    | _, _ =>
      let np := advancePositions path posList 37
      if np.isEmpty then false else matchesAux path (a :: b :: pat) np
  | c :: pat, posList =>
    let np := advancePositions path posList c
    if np.isEmpty then false else matchesAux path pat np

/-- `RobotsMatchStrategy::Matches` from demo.cpp. -/
def Matches (path pattern : List Nat) : Bool :=
  matchesAux path pattern [0]

/-- `LongestMatchRobotsMatchStrategy::MatchAllow` from demo.cpp. -/
def matchAllow (path pattern : List Nat) : Int :=
  if Matches path pattern then (pattern.length : Int) else -1

/-- `LongestMatchRobotsMatchStrategy::MatchDisallow` from demo.cpp. -/
def matchDisallow (path pattern : List Nat) : Int :=
  if Matches path pattern then (pattern.length : Int) else -1

/-- Byte value of the hex digit `d` (0..15), the source's `kHexDigits[d]`. -/
def kHexDigitAt (d : Nat) : Nat :=
  if d ≤ 9 then 48 + d else 65 + (d - 10)

/-- First pass of `MaybeEscapePattern` (demo.cpp, `string_view` overload):
does the value need changing?  A `%HH` sequence with a lowercase hex digit
forces capitalization; a byte with the high bit set needs escaping.  A `%`
not followed by two hex digits advances one byte (its high bit is clear). -/
def escapeNeedsChange : List Nat → Bool
  | 37 :: a :: b :: rest =>
    if asciiIsXDigit a && asciiIsXDigit b then
      asciiIsLower a || asciiIsLower b || escapeNeedsChange rest
    else escapeNeedsChange (a :: b :: rest)
  | c :: rest => decide (128 ≤ c) || escapeNeedsChange rest
  | [] => false

/-- Second pass of `MaybeEscapePattern` (demo.cpp): uppercase the digits of
`%HH` sequences and percent-encode high-bit bytes. -/
def escapeTransform : List Nat → List Nat
  | 37 :: a :: b :: rest =>
    if asciiIsXDigit a && asciiIsXDigit b then
      37 :: asciiToUpper a :: asciiToUpper b :: escapeTransform rest
    else 37 :: escapeTransform (a :: b :: rest)
  | c :: rest =>
    if 128 ≤ c then 37 :: kHexDigitAt (c / 16 % 16) :: kHexDigitAt (c % 16) :: escapeTransform rest
    else c :: escapeTransform rest
  | [] => []

/-- `MaybeEscapePattern` from demo.cpp (`string_view` overload): `none`
means no change was needed and the original slice is used. -/
def maybeEscapePattern (src : List Nat) : Option (List Nat) :=
  if escapeNeedsChange src then some (escapeTransform src) else none

/-- `EncodePathForMatching` from demo.cpp: re-encode literal `*` and `$` as
`%2A` / `%24`; unchanged if neither occurs. -/
def encodePathForMatching (path : List Nat) : List Nat :=
  if path.any (fun c => c == 42 || c == 36) then
    path.foldr (fun c acc =>
      if c == 42 then 37 :: 50 :: 65 :: acc
      else if c == 36 then 37 :: 50 :: 52 :: acc
      else c :: acc) []
  else path

/-- `std::string_view::find` of the byte sequence `pat` (first index where
`pat` is a prefix of the remainder), used for `url.find("...")`. -/
def findSubstrIdx (pat : List Nat) : List Nat → Option Nat
  | [] => if pat.isEmpty then some 0 else none
  | c :: t =>
    if pat.isPrefixOf (c :: t) then some 0
    else (findSubstrIdx pat t).map (· + 1)

/-- Strip everything from the first `#` onward (the fragment-stripping
`find('#')` / `substr(0, hash_pos)` steps in `GetPathParamsQuery`). -/
def stripFragment (s : List Nat) : List Nat :=
  match s.findIdx? (· == 35) with
  | some h => s.take h
  | none => s

/-- Shared tail of `GetPathParamsQuery` (demo.cpp): take the remainder from
`path_start`, strip the fragment, return `/` if empty, else re-encode. -/
def finishPath (s : List Nat) : List Nat :=
  let s2 := stripFragment s
  if s2.isEmpty then bytes "/" else encodePathForMatching s2

/-- `GetPathParamsQuery` from demo.cpp (the default, non-`ROBOTS_USE_ADA`
branch): extract path + query from a URL, dropping scheme, authority and
fragment. -/
def GetPathParamsQuery (url : List Nat) : List Nat :=
  if url.isEmpty then bytes "/"
  else
    let s :=
      match findSubstrIdx (bytes "://") url with
      | some i => url.drop (i + 3)
      | none => if url.take 2 = bytes "//" then url.drop 2 else url
    match s with
    | [] => finishPath s
    | c :: _ =>
      if c ≠ 47 ∧ c ≠ 63 then
        match s.findIdx? (· == 47), s.findIdx? (· == 63) with
        | none, none => bytes "/"
        | none, some q => encodePathForMatching (47 :: stripFragment (s.drop q))
        | some sl, _ => finishPath (s.drop sl)
      else finishPath s

/-- `kAllowFrequentTypos` from demo.cpp. -/
def kAllowFrequentTypos : Bool := true

/-- `ParsedRobotsKey::KeyType` from demo.cpp. -/
inductive KeyType where
  | userAgent
  | sitemap
  | allow
  | disallow
  | crawlDelay
  | requestRate
  | contentSignal
  | unknown
deriving DecidableEq, Repr

/-- `ParsedRobotsKey::KeyIsUserAgent` from demo.cpp: returns (matched,
is-acceptable-typo). -/
def keyIsUserAgent (key : List Nat) : Bool × Bool :=
  let typo := kAllowFrequentTypos &&
    (startsWithIgnoreCase key (bytes "useragent") ||
     startsWithIgnoreCase key (bytes "user agent"))
  (startsWithIgnoreCase key (bytes "user-agent") || typo, typo)

/-- `ParsedRobotsKey::KeyIsAllow` from demo.cpp. -/
def keyIsAllow (key : List Nat) : Bool × Bool :=
  (startsWithIgnoreCase key (bytes "allow"), false)

/-- `ParsedRobotsKey::KeyIsDisallow` from demo.cpp. -/
def keyIsDisallow (key : List Nat) : Bool × Bool :=
  let typo := kAllowFrequentTypos &&
    (startsWithIgnoreCase key (bytes "dissallow") ||
     startsWithIgnoreCase key (bytes "dissalow") ||
     startsWithIgnoreCase key (bytes "disalow") ||
     startsWithIgnoreCase key (bytes "diasllow") ||
     startsWithIgnoreCase key (bytes "disallaw"))
  (startsWithIgnoreCase key (bytes "disallow") || typo, typo)

/-- `ParsedRobotsKey::KeyIsSitemap` from demo.cpp. -/
def keyIsSitemap (key : List Nat) : Bool × Bool :=
  let typo := kAllowFrequentTypos && startsWithIgnoreCase key (bytes "site-map")
  (startsWithIgnoreCase key (bytes "sitemap") || typo, typo)

/-- `ParsedRobotsKey::KeyIsCrawlDelay` from demo.cpp. -/
def keyIsCrawlDelay (key : List Nat) : Bool × Bool :=
  let typo := kAllowFrequentTypos &&
    (startsWithIgnoreCase key (bytes "crawldelay") ||
     startsWithIgnoreCase key (bytes "crawl delay"))
  (startsWithIgnoreCase key (bytes "crawl-delay") || typo, typo)

/-- `ParsedRobotsKey::KeyIsRequestRate` from demo.cpp. -/
def keyIsRequestRate (key : List Nat) : Bool × Bool :=
  (startsWithIgnoreCase key (bytes "request-rate"), false)

/-- `ParsedRobotsKey::KeyIsContentSignal` from demo.cpp. -/
def keyIsContentSignal (key : List Nat) : Bool × Bool :=
  let typo := kAllowFrequentTypos &&
    (startsWithIgnoreCase key (bytes "contentsignal") ||
     startsWithIgnoreCase key (bytes "content signal"))
  (startsWithIgnoreCase key (bytes "content-signal") || typo, typo)

/-- `ParsedRobotsKey::Parse` from demo.cpp: classify a key, returning the
type together with the `is_acceptable_typo` flag of the matching stage. -/
def parseRobotsKey (key : List Nat) : KeyType × Bool :=
  let r := keyIsUserAgent key
  if r.1 then (.userAgent, r.2) else
  let r := keyIsAllow key
  if r.1 then (.allow, r.2) else
  let r := keyIsDisallow key
  if r.1 then (.disallow, r.2) else
  let r := keyIsSitemap key
  if r.1 then (.sitemap, r.2) else
  let r := keyIsCrawlDelay key
  if r.1 then (.crawlDelay, r.2) else
  let r := keyIsRequestRate key
  if r.1 then (.requestRate, r.2) else
  let r := keyIsContentSignal key
  if r.1 then (.contentSignal, r.2) else
  (.unknown, false)

/-- `RobotsTxtParser::NeedEscapeValueForKey` from demo.cpp. -/
def needEscapeValueForKey (k : KeyType) : Bool :=
  match k with
  | .userAgent => false
  | .sitemap => false
  | _ => true

/-- `RobotsParseHandler::LineMetadata` from demo.cpp. -/
structure LineMetadata where
  is_empty : Bool := false
  has_comment : Bool := false
  is_comment : Bool := false
  has_directive : Bool := false
  is_acceptable_typo : Bool := false
  is_line_too_long : Bool := false
  is_missing_colon_separator : Bool := false
deriving DecidableEq, Repr

/-- `FindFirstOf` from demo.cpp: first index in `s` of any byte in `chars`. -/
def findFirstOf (s chars : List Nat) : Option Nat :=
  s.findIdx? (fun c => chars.contains c)

/-- `RobotsTxtParser::GetKeyAndValueFrom` from demo.cpp.  Returns the
key/value pair (only when `has_directive` is set) and the line metadata. -/
def getKeyAndValueFrom (line0 : List Nat) : Option (List Nat × List Nat) × LineMetadata :=
  let cpos := line0.findIdx? (· == 35)
  let hasComment := cpos.isSome
  let line1 := match cpos with
    | some p => line0.take p
    | none => line0
  let line := stripAsciiWhitespace line1
  if line.isEmpty then
    if hasComment then (none, { has_comment := true, is_comment := true })
    else (none, { is_empty := true })
  else
    let md0 : LineMetadata := { has_comment := hasComment }
    let kWhite := [32, 9]
    match line.findIdx? (· == 58) with
    | some sep => emitKV line sep md0
    | none =>
      match findFirstOf line kWhite with
      | none => (none, md0)
      | some w =>
        let val := stripAsciiWhitespace (line.drop w)
        if (findFirstOf val kWhite).isSome then (none, md0)
        else emitKV line w { md0 with is_missing_colon_separator := true }
where
  /-- The shared tail of `GetKeyAndValueFrom` once a separator position is
  known: key is the stripped left side, value the stripped right side; the
  directive is valid only if the key is nonempty. -/
  emitKV (line : List Nat) (sep : Nat) (md : LineMetadata) :
      Option (List Nat × List Nat) × LineMetadata :=
    let key := stripAsciiWhitespace (line.take sep)
    if key.isEmpty then (none, md)
    else (some (key, stripAsciiWhitespace (line.drop (sep + 1))), { md with has_directive := true })

/-- C `strtol(s, &endptr, 10)` as used in `EmitKeyValueToHandler`
(demo.cpp): skip leading whitespace, accept an optional sign, read decimal
digits.  `none` models `endptr == s` (nothing consumed); otherwise the value
and the remainder after the digits are returned.  (The int-overflow clamp of
`strtol` is not modelled; no claim involves values near `LONG_MAX`.) -/
def strtol10 (s : List Nat) : Option (Int × List Nat) :=
  let s1 := s.dropWhile asciiIsSpace
  let signAndRest : Int × List Nat :=
    match s1 with
    | 43 :: t => (1, t)
    | 45 :: t => (-1, t)
    | _ => (1, s1)
  let digits := signAndRest.2.takeWhile (fun c => 48 ≤ c && c ≤ 57)
  if digits.isEmpty then none
  else
    some (signAndRest.1 * (digits.foldl (fun acc d => acc * 10 + (d - 48)) 0 : Nat),
          signAndRest.2.dropWhile (fun c => 48 ≤ c && c ≤ 57))

/-- `RequestRate` from demo.cpp (both fields default to 1). -/
structure RequestRate where
  requests : Int := 1
  seconds : Int := 1
deriving DecidableEq, Repr

/-- The `Key::REQUEST_RATE` case of `EmitKeyValueToHandler` (demo.cpp):
parse `"requests/seconds"`; the handler is invoked with the resulting rate
in every case, fields keeping their defaults when parsing fails or yields a
non-positive number. -/
def parseRequestRateValue (v : List Nat) : RequestRate :=
  if v.isEmpty then {}
  else
    match strtol10 v with
    | none => {}
    | some (req, rest) =>
      if 0 < req then
        match rest with
        | 47 :: rest2 =>
          (match strtol10 rest2 with
           | some (sec, _) => if 0 < sec then { requests := req, seconds := sec } else { requests := req }
           | none => { requests := req })
        | _ => { requests := req }
      else {}

/-- Directive events emitted by the parser to the `RobotsParseHandler`
(demo.cpp).  Crawl-delay and Content-Signal carry their raw (escaped) value
bytes: their numeric/boolean payload parsing (`strtod`, the `key=value`
list) is not needed by any claim and the matcher state stores the payload
opaquely. -/
inductive Event where
  | userAgent (line : Nat) (v : List Nat)
  | allow (line : Nat) (v : List Nat)
  | disallow (line : Nat) (v : List Nat)
  | sitemap (line : Nat) (v : List Nat)
  | crawlDelay (line : Nat) (v : List Nat)
  | requestRate (line : Nat) (rate : RequestRate)
  | contentSignal (line : Nat) (v : List Nat)
  | unknown (line : Nat) (action : List Nat) (v : List Nat)
deriving DecidableEq, Repr

/-- `EmitKeyValueToHandler` from demo.cpp, as an event constructor. -/
def emitKeyValue (line : Nat) (k : KeyType) (key v : List Nat) : Event :=
  match k with
  | .userAgent => .userAgent line v
  | .allow => .allow line v
  | .disallow => .disallow line v
  | .sitemap => .sitemap line v
  | .crawlDelay => .crawlDelay line v
  | .requestRate => .requestRate line (parseRequestRateValue v)
  | .contentSignal => .contentSignal line v
  | .unknown => .unknown line key v

/-- `RobotsTxtParser::ParseAndEmitLine` from demo.cpp: parse one line,
returning the emitted event (if any) and the line's metadata. -/
def parseAndEmitLine (lineNum : Nat) (line : List Nat) (tooLong : Bool) :
    Option Event × LineMetadata :=
  let r := getKeyAndValueFrom line
  let md := { r.2 with is_line_too_long := tooLong }
  match r.1 with
  | none => (none, md)
  | some (key, value) =>
    let k := parseRobotsKey key
    let md := { md with is_acceptable_typo := k.2 }
    let v := if needEscapeValueForKey k.1 then (maybeEscapePattern value).getD value else value
    (some (emitKeyValue lineNum k.1 key v), md)

/-- `kMaxLineLen` from demo.cpp: the zero-copy parser caps line content at
`2083 * 8 - 1` bytes (the original buffer reserved one byte of
`kBrowserMaxLineLen * 8` for the terminator). -/
def kMaxLineLen : Nat := 2083 * 8 - 1

/-- The per-line truncation of `RobotsTxtParser::Parse` (demo.cpp): content
beyond `kMaxLineLen` is dropped and the line is flagged too long. -/
def truncLine (cur : List Nat) : List Nat × Bool :=
  (cur.take kMaxLineLen, decide (kMaxLineLen < cur.length))

/-- The line-scanning loop of `RobotsTxtParser::Parse` (demo.cpp).
Arguments: remaining input, bytes of the current line so far, whether the
previous line ended in CR, number of lines emitted.  Produces
`(line number, truncated content, line_too_long)` triples; the final line is
always emitted (even when empty). -/
def splitLinesAux : List Nat → List Nat → Bool → Nat → List (Nat × List Nat × Bool)
  | [], cur, _, n => [(n + 1, (truncLine cur).1, (truncLine cur).2)]
  | ch :: t, cur, lastCR, n =>
    if ch == 10 || ch == 13 then
      if cur.isEmpty && lastCR && ch == 10 then
        splitLinesAux t [] (ch == 13) n
      else
        (n + 1, (truncLine cur).1, (truncLine cur).2) :: splitLinesAux t [] (ch == 13) (n + 1)
    else
      splitLinesAux t (cur ++ [ch]) lastCR n

/-- The BOM-skipping prologue of `RobotsTxtParser::Parse` (demo.cpp): the
length of the matched prefix of `EF BB BF`. -/
def bomPrefixLen : List Nat → Nat
  | 239 :: 187 :: 191 :: _ => 3
  | 239 :: 187 :: _ => 2
  | 239 :: _ => 1
  | _ => 0

/-- `RobotsTxtParser::Parse` (demo.cpp), line-splitting stage. -/
def splitLines (body : List Nat) : List (Nat × List Nat × Bool) :=
  splitLinesAux (body.drop (bomPrefixLen body)) [] false 0

/-- `ParseRobotsTxt` from demo.cpp, restricted to the stream of directive
events delivered to the handler (in source order). -/
def parseEvents (body : List Nat) : List Event :=
  (splitLines body).filterMap (fun e => (parseAndEmitLine e.1 e.2.1 e.2.2).1)

/-- `RobotsMatcher::Match` from demo.cpp: a match priority (−1 = no match)
and the matching line number. -/
structure Match where
  priority : Int := -1
  line : Nat := 0
deriving DecidableEq, Repr

/-- `RobotsMatcher::Match::HigherPriorityMatch` from demo.cpp: `a` wins only
on strictly greater priority. -/
def higherPriorityMatch (a b : Match) : Match :=
  if b.priority < a.priority then a else b

/-- `RobotsMatcher::MatchHierarchy` from demo.cpp. -/
structure MatchHierarchy where
  global : Match := {}
  specific : Match := {}
deriving DecidableEq, Repr

/-- The state of `RobotsMatcher` (demo.cpp) during one
`AllowedByRobots` call.  Crawl-delay and Content-Signal store their raw
directive value bytes (the payload is opaque to every claim). -/
structure MatcherState where
  allow : MatchHierarchy := {}
  disallow : MatchHierarchy := {}
  seen_global_agent : Bool := false
  seen_specific_agent : Bool := false
  ever_seen_specific_agent : Bool := false
  seen_separator : Bool := false
  best_specific_agent_length : Nat := 0
  crawl_delay_global : Option (List Nat) := none
  crawl_delay_specific : Option (List Nat) := none
  request_rate_global : Option RequestRate := none
  request_rate_specific : Option RequestRate := none
  content_signal_global : Option (List Nat) := none
  content_signal_specific : Option (List Nat) := none
deriving DecidableEq, Repr

/-- `RobotsMatcher::HandleRobotsStart` from demo.cpp: everything cleared. -/
def initState : MatcherState := {}

/-- `RobotsMatcher::seen_any_agent` from demo.cpp. -/
def seenAnyAgent (st : MatcherState) : Bool :=
  st.seen_global_agent || st.seen_specific_agent

/-- `RobotsMatcher::ExtractUserAgent` from demo.cpp: longest prefix of
bytes in `[A-Za-z_-]`. -/
def extractUserAgent (ua : List Nat) : List Nat :=
  ua.takeWhile (fun c => asciiIsAlpha c || c == 45 || c == 95)

/-- The global-agent test in `RobotsMatcher::HandleUserAgent` (demo.cpp):
a value starting with `*` that is either just `*` or has whitespace next. -/
def isGlobalUserAgentValue : List Nat → Bool
  | 42 :: rest =>
    match rest with
    | [] => true
    | c :: _ => asciiIsSpace c
  | _ => false

/-- `RobotsMatcher::HandleUserAgent` from demo.cpp.  A pending
`seen_separator_` closes the previous group first; then either the global
flag is set, or the extracted agent is compared (case-insensitively, first
match in the query list wins) and the most-specific-wins bookkeeping runs. -/
def handleUserAgent (agents : List (List Nat)) (st0 : MatcherState) (v : List Nat) :
    MatcherState :=
  let st := if st0.seen_separator then
      { st0 with seen_specific_agent := false, seen_global_agent := false,
                 seen_separator := false }
    else st0
  if isGlobalUserAgentValue v then { st with seen_global_agent := true }
  else
    let ua := extractUserAgent v
    match agents.find? (fun a => equalsIgnoreCase ua a) with
    | some _ =>
      if st.best_specific_agent_length < ua.length then
        { st with best_specific_agent_length := ua.length,
                  allow := { st.allow with specific := {} },
                  disallow := { st.disallow with specific := {} },
                  ever_seen_specific_agent := true, seen_specific_agent := true }
      else if ua.length == st.best_specific_agent_length then
        { st with ever_seen_specific_agent := true, seen_specific_agent := true }
      else st
    | none => st

/-- The priority-storing step of `RobotsMatcher::HandleAllow` (demo.cpp):
update the specific (else global) allow match when the new priority is
strictly greater than the stored one. -/
def updateAllowMatch (line : Nat) (pri : Int) (st : MatcherState) : MatcherState :=
  if st.seen_specific_agent then
    if st.allow.specific.priority < pri then
      { st with allow := { st.allow with specific := { priority := pri, line := line } } }
    else st
  else
    if st.allow.global.priority < pri then
      { st with allow := { st.allow with global := { priority := pri, line := line } } }
    else st

/-- The priority-storing step of `RobotsMatcher::HandleDisallow` (demo.cpp). -/
def updateDisallowMatch (line : Nat) (pri : Int) (st : MatcherState) : MatcherState :=
  if st.seen_specific_agent then
    if st.disallow.specific.priority < pri then
      { st with disallow := { st.disallow with specific := { priority := pri, line := line } } }
    else st
  else
    if st.disallow.global.priority < pri then
      { st with disallow := { st.disallow with global := { priority := pri, line := line } } }
    else st

/-- `std::string_view::find_last_of('/')`: index of the last `/`. -/
def findLastSlash : List Nat → Option Nat
  | [] => none
  | c :: rest =>
    match findLastSlash rest with
    | some i => some (i + 1)
    | none => if c == 47 then some 0 else none

/-- `RobotsMatcher::HandleAllow` from demo.cpp, with the single level of
recursion unrolled.  When the pattern does not match but ends in
`/index.htm...`, the source retries `HandleAllow` on the prefix up to the
last `/` with `$` appended; that retried pattern's own tail from its last
`/` is `/$`, which never starts with `/index.htm`, so the nested call can
never recurse again and unrolling one level is exact. -/
def handleAllow (path : List Nat) (line : Nat) (v : List Nat) (st0 : MatcherState) :
    MatcherState :=
  if !seenAnyAgent st0 then st0
  else
    let st := { st0 with seen_separator := true }
    let pri := matchAllow path v
    if 0 ≤ pri then updateAllowMatch line pri st
    else
      match findLastSlash v with
      | some s =>
        if (bytes "/index.htm").isPrefixOf (v.drop s) then
          let np := v.take (s + 1) ++ [36]
          let pri2 := matchAllow path np
          if 0 ≤ pri2 then updateAllowMatch line pri2 st else st
        else st
      | none => st

/-- `RobotsMatcher::HandleDisallow` from demo.cpp. -/
def handleDisallow (path : List Nat) (line : Nat) (v : List Nat) (st0 : MatcherState) :
    MatcherState :=
  if !seenAnyAgent st0 then st0
  else
    let st := { st0 with seen_separator := true }
    let pri := matchDisallow path v
    if 0 ≤ pri then updateDisallowMatch line pri st else st

/-- `RobotsMatcher::HandleSitemap` from demo.cpp: an empty body — the
matcher state is untouched (in particular `seen_separator_` is not set). -/
def handleSitemap (st : MatcherState) (_v : List Nat) : MatcherState := st

/-- `RobotsMatcher::HandleUnknownAction` from demo.cpp: an empty body. -/
def handleUnknownAction (st : MatcherState) (_action _v : List Nat) : MatcherState := st

/-- `RobotsMatcher::HandleCrawlDelay` from demo.cpp: store in the current
scope, first value wins; `seen_separator_` is not set. -/
def handleCrawlDelay (v : List Nat) (st : MatcherState) : MatcherState :=
  if !seenAnyAgent st then st
  else if st.seen_specific_agent then
    if st.crawl_delay_specific.isNone then { st with crawl_delay_specific := some v } else st
  else if st.seen_global_agent then
    if st.crawl_delay_global.isNone then { st with crawl_delay_global := some v } else st
  else st

/-- `RobotsMatcher::HandleRequestRate` from demo.cpp: store in the current
scope, first value wins; `seen_separator_` is not set. -/
def handleRequestRate (rate : RequestRate) (st : MatcherState) : MatcherState :=
  if !seenAnyAgent st then st
  else if st.seen_specific_agent then
    if st.request_rate_specific.isNone then { st with request_rate_specific := some rate } else st
  else if st.seen_global_agent then
    if st.request_rate_global.isNone then { st with request_rate_global := some rate } else st
  else st

/-- `RobotsMatcher::HandleContentSignal` from demo.cpp: store in the current
scope, first value wins; `seen_separator_` is not set. -/
def handleContentSignal (v : List Nat) (st : MatcherState) : MatcherState :=
  if !seenAnyAgent st then st
  else if st.seen_specific_agent then
    if st.content_signal_specific.isNone then { st with content_signal_specific := some v } else st
  else if st.seen_global_agent then
    if st.content_signal_global.isNone then { st with content_signal_global := some v } else st
  else st

/-- One directive event dispatched to the `RobotsMatcher` handler
callbacks (demo.cpp). -/
def step (agents : List (List Nat)) (path : List Nat) (st : MatcherState) :
    Event → MatcherState
  | .userAgent _ v => handleUserAgent agents st v
  | .allow line v => handleAllow path line v st
  | .disallow line v => handleDisallow path line v st
  | .sitemap _ v => handleSitemap st v
  | .crawlDelay _ v => handleCrawlDelay v st
  | .requestRate _ rate => handleRequestRate rate st
  | .contentSignal _ v => handleContentSignal v st
  | .unknown _ a v => handleUnknownAction st a v

/-- The matcher state at `HandleRobotsEnd` of
`RobotsMatcher::AllowedByRobots(body, agents, url)` (demo.cpp):
`HandleRobotsStart` resets the state, the path is extracted with
`GetPathParamsQuery`, and the parse events are folded in source order. -/
def runState (body : List Nat) (agents : List (List Nat)) (url : List Nat) : MatcherState :=
  (parseEvents body).foldl (step agents (GetPathParamsQuery url)) initState

/-- `RobotsMatcher::disallow` from demo.cpp. -/
def RobotsMatcher.disallow (st : MatcherState) : Bool :=
  if 0 < st.allow.specific.priority || 0 < st.disallow.specific.priority then
    decide (st.allow.specific.priority < st.disallow.specific.priority)
  else if st.ever_seen_specific_agent then false
  else if 0 < st.disallow.global.priority || 0 < st.allow.global.priority then
    decide (st.allow.global.priority < st.disallow.global.priority)
  else false

/-- `RobotsMatcher::AllowedByRobots` from demo.cpp: parse, then negate
`disallow()`. -/
def allowedByRobots (body : List Nat) (agents : List (List Nat)) (url : List Nat) : Bool :=
  !RobotsMatcher.disallow (runState body agents url)

/-- `RobotsMatcher::matching_line` from demo.cpp. -/
def matchingLine (st : MatcherState) : Nat :=
  if st.ever_seen_specific_agent then
    (higherPriorityMatch st.disallow.specific st.allow.specific).line
  else
    (higherPriorityMatch st.disallow.global st.allow.global).line

/-- `RobotsMatcher::GetRequestRate` from demo.cpp. -/
def getRequestRate (st : MatcherState) : Option RequestRate :=
  if st.ever_seen_specific_agent && st.request_rate_specific.isSome then
    st.request_rate_specific
  else st.request_rate_global

/-- The `ROBOTS_ASSERT('/' == *path_)` of
`RobotsMatcher::InitUserAgentsAndPath` (demo.cpp): the extracted path must
start with `/`. -/
def pathStartsWithSlash (p : List Nat) : Prop :=
  p.headD 0 = 47

instance (p : List Nat) : Decidable (pathStartsWithSlash p) :=
  inferInstanceAs (Decidable (p.headD 0 = 47))

/-- Claim C1: the end-of-parse verdict of `RobotsMatcher::disallow` follows
exactly the four-step procedure of the spec (specific scope first, then the
empty-specific-group default, then the global scope, then allow), and an
Allow and a Disallow of equal priority within the deciding scope yield
`allowed` (i.e. `disallow` returns `false`). -/
theorem claim_C1 (body : List Nat) (agents : List (List Nat)) (url : List Nat)
    (st : MatcherState) (_hst : st = runState body agents url) :
    (RobotsMatcher.disallow st =
      if 0 < st.allow.specific.priority || 0 < st.disallow.specific.priority then
        decide (st.disallow.specific.priority > st.allow.specific.priority)
      else if st.ever_seen_specific_agent then false
      else if 0 < st.disallow.global.priority || 0 < st.allow.global.priority then
        decide (st.disallow.global.priority > st.allow.global.priority)
      else false)
    ∧ (0 < st.allow.specific.priority →
        st.disallow.specific.priority = st.allow.specific.priority →
        RobotsMatcher.disallow st = false)
    ∧ (st.allow.specific.priority ≤ 0 → st.disallow.specific.priority ≤ 0 →
        st.ever_seen_specific_agent = false →
        st.disallow.global.priority = st.allow.global.priority →
        RobotsMatcher.disallow st = false) := by
  refine ⟨rfl, ?_, ?_⟩
  · intro h1 h2
    simp [RobotsMatcher.disallow, h1, h2]
  · intro h1 h2 h3 h4
    have n1 : ¬ (0 < st.allow.specific.priority) := by omega
    have n2 : ¬ (0 < st.disallow.specific.priority) := by omega
    simp [RobotsMatcher.disallow, n1, n2, h3, h4]

theorem claim_C1_witness :
    RobotsMatcher.disallow (runState (bytes "user-agent: FooBot\nallow: /a\ndisallow: /a\n")
      [bytes "FooBot"] (bytes "http://foo.bar/ab")) = false
  ∧ RobotsMatcher.disallow (runState (bytes "user-agent: *\nallow: /a\ndisallow: /a\n")
      [bytes "FooBot"] (bytes "http://foo.bar/ab")) = false := by
  constructor
  · exact (claim_C1 (bytes "user-agent: FooBot\nallow: /a\ndisallow: /a\n")
      [bytes "FooBot"] (bytes "http://foo.bar/ab") _ rfl).2.1 (by decide) (by decide)
  · exact (claim_C1 (bytes "user-agent: *\nallow: /a\ndisallow: /a\n")
      [bytes "FooBot"] (bytes "http://foo.bar/ab") _ rfl).2.2
      (by decide) (by decide) (by decide) (by decide)

/-- Claim C2 (amended): when rules `Allow: A` and `Disallow: D` in the
applicable group both match the path, the verdict is disallow exactly when
`len(A) < len(D)` — ties go to allow, so the claimed formula
`len(A) ≤ len(D) ? disallow : allow` is wrong precisely at ties.  Stated
for a fresh specific group (both rule orders) and a fresh global group. -/
theorem claim_C2_amended (path A D : List Nat) (l1 l2 : Nat)
    (hA : Matches path A = true) (hD : Matches path D = true) :
    RobotsMatcher.disallow
        (handleDisallow path l2 D (handleAllow path l1 A
          { initState with seen_specific_agent := true, ever_seen_specific_agent := true }))
      = decide (A.length < D.length)
  ∧ RobotsMatcher.disallow
        (handleAllow path l1 A (handleDisallow path l2 D
          { initState with seen_specific_agent := true, ever_seen_specific_agent := true }))
      = decide (A.length < D.length)
  ∧ RobotsMatcher.disallow
        (handleDisallow path l2 D (handleAllow path l1 A
          { initState with seen_global_agent := true }))
      = decide (A.length < D.length) := by
  have hA0 : (-1 : Int) < (A.length : Int) := by omega
  have hD0 : (-1 : Int) < (D.length : Int) := by omega
  have hA1 : (0 : Int) ≤ (A.length : Int) := by omega
  have hD1 : (0 : Int) ≤ (D.length : Int) := by omega
  refine ⟨?_, ?_, ?_⟩ <;>
  · simp [handleAllow, handleDisallow, matchAllow, matchDisallow, hA, hD,
      seenAnyAgent, updateAllowMatch, updateDisallowMatch, initState,
      RobotsMatcher.disallow, hA0, hD0, hA1, hD1]
    try omega

theorem claim_C2_witness :
    RobotsMatcher.disallow
        (handleDisallow (bytes "/ab") 3 (bytes "/ab") (handleAllow (bytes "/ab") 2 (bytes "/a")
          { initState with seen_specific_agent := true, ever_seen_specific_agent := true }))
      = decide ((bytes "/a").length < (bytes "/ab").length) :=
  (claim_C2_amended (bytes "/ab") (bytes "/a") (bytes "/ab") 2 3
    (by decide) (by decide)).1

/-- Claim C2, counterexample to the stated tie direction: with
`Allow: /a` and `Disallow: /a` both matching `/ab` (equal pattern lengths,
so `len(A) ≤ len(D)` holds), the code allows the URL, while the claimed
formula `len(A) ≤ len(D) ? disallow : allow` demands disallow. -/
theorem claim_C2_counterexample :
    allowedByRobots (bytes "user-agent: FooBot\nallow: /a\ndisallow: /a\n")
        [bytes "FooBot"] (bytes "http://foo.bar/ab") = true
  ∧ Matches (GetPathParamsQuery (bytes "http://foo.bar/ab")) (bytes "/a") = true
  ∧ (bytes "/a").length ≤ (bytes "/a").length := by
  refine ⟨by decide, by decide, le_refl _⟩


/-!
Executable sanity checks: the embedding reproduces the repository test
suite's published vectors for path extraction, line splitting, parsing and
the end-to-end `AllowedByRobots` scenarios of the spec.
-/

example : GetPathParamsQuery (bytes "") = bytes "/" := by decide
example : GetPathParamsQuery (bytes "http://www.example.com") = bytes "/" := by decide
example : GetPathParamsQuery (bytes "http://www.example.com/a/b?c=d&e=f#fragment") = bytes "/a/b?c=d&e=f" := by decide
example : GetPathParamsQuery (bytes "example.com?a") = bytes "/?a" := by decide
example : GetPathParamsQuery (bytes "a/b") = bytes "/b" := by decide
example : GetPathParamsQuery (bytes "//a/b/c") = bytes "/b/c" := by decide
example : GetPathParamsQuery (bytes "example.com/a;b#c") = bytes "/a;b" := by decide
example : GetPathParamsQuery (bytes "http://foo.bar/path/file-with-*.html") = bytes "/path/file-with-%2A.html" := by decide
example : (getKeyAndValueFrom (bytes "disallow: /x")).1 = some (bytes "disallow", bytes "/x") := by decide
example : (getKeyAndValueFrom (bytes "  user-agent  FooBot  ")).1 = some (bytes "user-agent", bytes "FooBot") := by decide
example : (getKeyAndValueFrom (bytes "  user-agent  FooBot  ")).2.is_missing_colon_separator = true := by decide
example : (getKeyAndValueFrom (bytes "a b c")).1 = none := by decide
example : (getKeyAndValueFrom (bytes "# only a comment")).2.is_comment = true := by decide
example : (getKeyAndValueFrom (bytes "allow: /x # comment")).1 = some (bytes "allow", bytes "/x") := by decide
example : (getKeyAndValueFrom (bytes ": no key")).1 = none := by decide
example : parseRequestRateValue (bytes "1/5") = { requests := 1, seconds := 5 } := by decide
example : parseRequestRateValue (bytes "1/10s") = { requests := 1, seconds := 10 } := by decide
example : parseRequestRateValue (bytes "2") = { requests := 2, seconds := 1 } := by decide
example : parseRequestRateValue (bytes "abc") = { requests := 1, seconds := 1 } := by decide
example : parseRequestRateValue (bytes "-3/5") = { requests := 1, seconds := 1 } := by decide
example : parseRequestRateValue (bytes "5/0") = { requests := 5, seconds := 1 } := by decide
example : splitLines (bytes "a\r\nb") = [(1, bytes "a", false), (2, bytes "b", false)] := by decide
example : splitLines (bytes "a\n\nb") = [(1, bytes "a", false), (2, [], false), (3, bytes "b", false)] := by decide
example : splitLines (bytes "a\n") = [(1, bytes "a", false), (2, [], false)] := by decide
example : (splitLines (bytes "\xEF\xBB\xBFuser-agent: foo")).map (fun e => e.2.1) = [bytes "user-agent: foo"] := by decide
example : parseEvents (bytes "user-agent: FooBot\ndisallow: /x\n") =
    [.userAgent 1 (bytes "FooBot"), .disallow 2 (bytes "/x")] := by decide
example : parseEvents (bytes "request-rate: 1/5") = [.requestRate 1 { requests := 1, seconds := 5 }] := by decide
example : parseEvents (bytes "disalow: /typo") = [.disallow 1 (bytes "/typo")] := by decide
example : parseEvents (bytes "foo: bar") = [.unknown 1 (bytes "foo") (bytes "bar")] := by decide
example : allowedByRobots (bytes "user-agent: FooBot\ndisallow: /\n")
    [bytes "FooBot"] (bytes "http://foo.bar/x/y") = false := by decide
example : allowedByRobots (bytes "user-agent: FooBot\nallow: /x/page.html\ndisallow: /x/\n")
    [bytes "FooBot"] (bytes "http://foo.bar/x/page.html") = true := by decide
example : allowedByRobots (bytes "user-agent: FooBot\nallow: /x/page.html\ndisallow: /x/\n")
    [bytes "FooBot"] (bytes "http://foo.bar/x/") = false := by decide
example : allowedByRobots (bytes "user-agent: FooBot\ndisallow: /\nallow: /fish*.php\n")
    [bytes "FooBot"] (bytes "http://foo.bar/fishheads/catfish.php?parameters") = true := by decide
example : allowedByRobots (bytes "user-agent: FooBot\ndisallow: /\nallow: /fish*.php\n")
    [bytes "FooBot"] (bytes "http://foo.bar/Fish.PHP") = false := by decide
example : allowedByRobots (bytes "User-agent: FooBot\nDisallow: /path/file-with-%2A.html\n")
    [bytes "FooBot"] (bytes "http://foo.bar/path/file-with-*.html") = false := by decide
example : allowedByRobots (bytes "user-agent: BarBot\ndisallow: /\n")
    [bytes "FooBot"] (bytes "http://foo.bar/x") = true := by decide
example : Matches (bytes "/x/y") (bytes "/x") = true := by decide
example : Matches (bytes "/x/y") (bytes "/y") = false := by decide
example : Matches (bytes "/x/y") (bytes "/*/y") = true := by decide
example : Matches (bytes "/x/y") (bytes "/x/y$") = true := by decide
example : Matches (bytes "/x/yz") (bytes "/x/y$") = false := by decide
example : Matches (bytes "/") (bytes "%2F") = true := by decide
example : Matches (bytes "/baz") (bytes "/%62%61%7A") = true := by decide
example : matchAllow (bytes "/baz") (bytes "/%62%61%7A") = 10 := by decide
example : Matches (bytes "/fishheads/catfish.php?parameters") (bytes "/fish*.php") = true := by decide

theorem updateAllowMatch_sep (line : Nat) (pri : Int) (st : MatcherState) :
    (updateAllowMatch line pri st).seen_separator = st.seen_separator := by
  unfold updateAllowMatch
  split <;> split <;> rfl

theorem updateDisallowMatch_sep (line : Nat) (pri : Int) (st : MatcherState) :
    (updateDisallowMatch line pri st).seen_separator = st.seen_separator := by
  unfold updateDisallowMatch
  split <;> split <;> rfl

/-- Claim C3 (amended): a `UserAgent` line starts a fresh group exactly when
`seen_separator` is pending, and `seen_separator` is set only by Allow and
Disallow directives handled while an agent group is active; Sitemap, Unknown,
Crawl-delay, Request-rate and Content-Signal never close a group (the
matcher's `HandleSitemap` / `HandleUnknownAction` are empty, so —
contrary to the claim — Sitemap and Unknown do not act as separators
either). -/
theorem claim_C3_amended (agents : List (List Nat)) (path v a : List Nat)
    (line : Nat) (rate : RequestRate) (st : MatcherState) :
    (st.seen_separator = true →
      handleUserAgent agents st v =
        handleUserAgent agents
          { st with seen_global_agent := false, seen_specific_agent := false,
                    seen_separator := false } v)
  ∧ (st.seen_separator = false →
      (st.seen_global_agent = true → (handleUserAgent agents st v).seen_global_agent = true)
      ∧ (st.seen_specific_agent = true → (handleUserAgent agents st v).seen_specific_agent = true))
  ∧ handleSitemap st v = st
  ∧ handleUnknownAction st a v = st
  ∧ (handleCrawlDelay v st).seen_separator = st.seen_separator
  ∧ (handleRequestRate rate st).seen_separator = st.seen_separator
  ∧ (handleContentSignal v st).seen_separator = st.seen_separator
  ∧ (seenAnyAgent st = true → (handleAllow path line v st).seen_separator = true)
  ∧ (seenAnyAgent st = true → (handleDisallow path line v st).seen_separator = true)
  ∧ (seenAnyAgent st = false →
      handleAllow path line v st = st ∧ handleDisallow path line v st = st) := by
  refine ⟨?_, ?_, rfl, rfl, ?_, ?_, ?_, ?_, ?_, ?_⟩
  · intro h
    simp [handleUserAgent, h]
  · intro h
    constructor <;> intro hg <;>
      (unfold handleUserAgent
       simp only [h, Bool.false_eq_true, if_false]
       repeat' split
       all_goals simp_all)
  · unfold handleCrawlDelay
    repeat' split
    all_goals rfl
  · unfold handleRequestRate
    repeat' split
    all_goals rfl
  · unfold handleContentSignal
    repeat' split
    all_goals rfl
  · intro h
    unfold handleAllow
    simp only [h, Bool.not_true, Bool.false_eq_true, if_false]
    split
    · rw [updateAllowMatch_sep]
    · split
      · split
        · split
          · rw [updateAllowMatch_sep]
          · rfl
        · rfl
      · rfl
  · intro h
    unfold handleDisallow
    simp only [h, Bool.not_true, Bool.false_eq_true, if_false]
    split
    · rw [updateDisallowMatch_sep]
    · rfl
  · intro h
    unfold handleAllow handleDisallow
    simp [h]

/-- Claim C3, counterexample to "Sitemap or Unknown closes a group": in
`user-agent: FooBot / sitemap: ... / user-agent: * / disallow: /`, the
Sitemap line does not set `seen_separator`, so the second `user-agent` line
does not start a fresh group: `seen_specific_agent` is still set afterwards
and the `disallow` is credited to FooBot's specific scope (URL disallowed),
whereas under the claim the second user-agent line would have started a
fresh `*`-only group, leaving FooBot's group empty (URL allowed). -/
theorem claim_C3_counterexample :
    (((parseEvents (bytes "user-agent: FooBot\nsitemap: http://x/\nuser-agent: *\ndisallow: /\n")).take 2).foldl
        (step [bytes "FooBot"] (bytes "/x")) initState).seen_separator = false
  ∧ (((parseEvents (bytes "user-agent: FooBot\nsitemap: http://x/\nuser-agent: *\ndisallow: /\n")).take 3).foldl
        (step [bytes "FooBot"] (bytes "/x")) initState).seen_specific_agent = true
  ∧ allowedByRobots (bytes "user-agent: FooBot\nsitemap: http://x/\nuser-agent: *\ndisallow: /\n")
      [bytes "FooBot"] (bytes "http://foo.bar/x") = false := by
  refine ⟨by decide, by decide, by decide⟩

theorem claim_C3_witness :
    handleSitemap initState (bytes "http://x/") = initState
  ∧ (handleCrawlDelay (bytes "3") { initState with seen_global_agent := true }).seen_separator
      = ({ initState with seen_global_agent := true } : MatcherState).seen_separator
  ∧ (handleAllow (bytes "/x") 2 (bytes "/")
      { initState with seen_global_agent := true }).seen_separator = true
  ∧ handleAllow (bytes "/x") 2 (bytes "/") initState = initState := by
  refine ⟨?_, ?_, ?_, ?_⟩
  · exact (claim_C3_amended [] (bytes "/x") (bytes "http://x/") (bytes "a") 2 {} initState).2.2.1
  · exact (claim_C3_amended [] (bytes "/x") (bytes "3") (bytes "a") 2 {}
      { initState with seen_global_agent := true }).2.2.2.2.1
  · exact (claim_C3_amended [] (bytes "/x") (bytes "/") (bytes "a") 2 {}
      { initState with seen_global_agent := true }).2.2.2.2.2.2.2.1 (by decide)
  · exact ((claim_C3_amended [] (bytes "/x") (bytes "/") (bytes "a") 2 {}
      initState).2.2.2.2.2.2.2.2.2 (by decide)).1

theorem splitLinesAux_no_eol (l : List Nat) :
    ∀ (cur : List Nat) (lastCR : Bool) (n : Nat),
      (∀ c ∈ l, (c == 10 || c == 13) = false) →
      splitLinesAux l cur lastCR n =
        [(n + 1, (truncLine (cur ++ l)).1, (truncLine (cur ++ l)).2)] := by
  induction l with
  | nil => intro cur lastCR n _; simp [splitLinesAux]
  | cons c t ih =>
    intro cur lastCR n hl
    have hc : (c == 10 || c == 13) = false := hl c (by simp)
    have ht : ∀ x ∈ t, (x == 10 || x == 13) = false := fun x hx => hl x (by simp [hx])
    rw [splitLinesAux, if_neg (by simp [hc]), ih (cur ++ [c]) lastCR n ht]
    simp

theorem splitLinesAux_content_le (l : List Nat) :
    ∀ (cur : List Nat) (lastCR : Bool) (n : Nat) (e : Nat × List Nat × Bool),
      e ∈ splitLinesAux l cur lastCR n → e.2.1.length ≤ kMaxLineLen := by
  induction l with
  | nil =>
    intro cur lastCR n e he
    simp [splitLinesAux] at he
    simp [he, truncLine, List.length_take]
  | cons c t ih =>
    intro cur lastCR n e he
    rw [splitLinesAux] at he
    split at he
    · split at he
      · exact ih _ _ _ _ he
      · rcases List.mem_cons.mp he with h | h
        · simp [h, truncLine, List.length_take]
        · exact ih _ _ _ _ h
    · exact ih _ _ _ _ he

/-- Claim C4 (amended): the line-content cap of the parser is
`kMaxLineLen = 2083 * 8 − 1 = 16 663` bytes, not 16 664: content of at most
16 663 bytes is kept in full with `is_line_too_long` unset, content beyond
16 663 bytes is truncated to exactly 16 663 bytes with the flag set, and
every line the scanner emits has content of at most 16 663 bytes. -/
theorem claim_C4_amended (cur : List Nat) (body : List Nat) (e : Nat × List Nat × Bool) :
    kMaxLineLen = 16663
  ∧ (cur.length ≤ 16663 → truncLine cur = (cur, false))
  ∧ (16663 < cur.length →
      (truncLine cur).1 = cur.take 16663 ∧ (truncLine cur).1.length = 16663 ∧
      (truncLine cur).2 = true)
  ∧ (e ∈ splitLines body → e.2.1.length ≤ 16663) := by
  refine ⟨rfl, ?_, ?_, ?_⟩
  · intro h
    simp [truncLine, kMaxLineLen, List.take_of_length_le h]
    omega
  · intro h
    refine ⟨rfl, ?_, by simp [truncLine, kMaxLineLen]; omega⟩
    simp [truncLine, kMaxLineLen, List.length_take]
    omega
  · intro he
    exact splitLinesAux_content_le _ _ _ _ _ he

theorem claim_C4_witness :
    truncLine (bytes "allow: /x") = (bytes "allow: /x", false)
  ∧ truncLine (List.replicate 16665 97) = (List.replicate 16663 97, true) := by
  constructor
  · exact (claim_C4_amended (bytes "allow: /x") [] (1, [], false)).2.1 (by decide)
  · have h := (claim_C4_amended (List.replicate 16665 97) [] (1, [], false)).2.2.1
      (by rw [List.length_replicate]; norm_num)
    have h1 : (List.replicate 16665 97).take 16663 = List.replicate 16663 97 := by
      rw [List.take_replicate]; norm_num
    have h2 := h.1
    have h3 := h.2.2
    rw [h1] at h2
    exact Prod.ext h2 h3

/-- Claim C4, counterexample: a line of exactly 16 664 content bytes (within
the claim's bound of "at most 16 664 bytes processed in full") is already
truncated — to 16 663 bytes — and flagged `is_line_too_long`, because the
parser's cap is `kMaxLineLen = 2083 * 8 − 1 = 16 663`, one byte below the
claimed 16 664. -/
theorem claim_C4_counterexample :
    splitLines (List.replicate 16664 97) = [(1, List.replicate 16663 97, true)]
  ∧ (List.replicate 16664 97).length = 16664 := by
  have ht : truncLine (List.replicate 16664 97) = (List.replicate 16663 97, true) := by
    have h1 : (List.replicate 16664 97).take 16663 = List.replicate 16663 97 := by
      rw [List.take_replicate]; norm_num
    have h2 : decide (kMaxLineLen < (List.replicate 16664 97).length) = true := by
      rw [List.length_replicate]; rfl
    show ((List.replicate 16664 97).take kMaxLineLen,
          decide (kMaxLineLen < (List.replicate 16664 97).length)) = _
    rw [h2, show kMaxLineLen = 16663 from rfl, h1]
  constructor
  · have hrepl : List.replicate 16664 97 = 97 :: List.replicate 16663 97 := by
      rw [show (16664 : Nat) = 16663 + 1 by norm_num, List.replicate_succ]
    have hbom : bomPrefixLen (List.replicate 16664 97) = 0 := by
      rw [hrepl]; rfl
    have hnl : ∀ c ∈ List.replicate 16664 97, (c == 10 || c == 13) = false := by
      intro c hc
      rw [List.eq_of_mem_replicate hc]
      rfl
    rw [splitLines, hbom, List.drop_zero,
      splitLinesAux_no_eol _ [] false 0 hnl, List.nil_append, ht]
  · rw [List.length_replicate]

/-- Claim C5 (amended): a Request-rate directive whose value is malformed
(no leading positive integer) is NOT dropped — the handler is still invoked
and the default rate `requests = 1, seconds = 1` is stored for the current
scope; a value `R/S` whose seconds part is malformed or non-positive is
stored as `requests = R, seconds = 1`.  In all cases the parsed rate is
stored (first value wins), so `get_request_rate()` does not reflect only
other, valid directives. -/
theorem claim_C5_amended (v rest2 : List Nat) (req : Int) (st : MatcherState) :
    ((∀ r, strtol10 v = some r → r.1 ≤ 0) →
      parseRequestRateValue v = { requests := 1, seconds := 1 })
  ∧ (strtol10 v = some (req, 47 :: rest2) → 0 < req →
      (∀ r2, strtol10 rest2 = some r2 → r2.1 ≤ 0) →
      parseRequestRateValue v = { requests := req, seconds := 1 })
  ∧ (st.seen_specific_agent = true → st.request_rate_specific = none →
      (handleRequestRate (parseRequestRateValue v) st).request_rate_specific =
        some (parseRequestRateValue v)) := by
  refine ⟨?_, ?_, ?_⟩
  · intro h
    unfold parseRequestRateValue
    split
    · rfl
    · cases hv : strtol10 v with
      | none => rfl
      | some r =>
        have := h r hv
        rcases r with ⟨rq, rs⟩
        simp only []
        rw [if_neg (by omega)]
  · intro hv hreq h2
    have hne : v.isEmpty = false := by
      cases v with
      | nil => simp [strtol10] at hv
      | cons c t => rfl
    unfold parseRequestRateValue
    rw [hne, if_neg (by simp), hv]
    simp only [hreq, if_pos]
    cases h47 : strtol10 rest2 with
    | none => rfl
    | some r2 =>
      have := h2 r2 h47
      rcases r2 with ⟨sq, ss⟩
      simp only []
      rw [if_neg (by omega)]
  · intro h1 h2
    unfold handleRequestRate
    rw [if_neg (by simp [seenAnyAgent, h1]), if_pos h1, if_pos (by simp [h2])]

theorem claim_C5_witness :
    parseRequestRateValue (bytes "abc") = { requests := 1, seconds := 1 }
  ∧ parseRequestRateValue (bytes "5/0") = { requests := 5, seconds := 1 }
  ∧ (handleRequestRate (parseRequestRateValue (bytes "abc"))
      { initState with seen_specific_agent := true }).request_rate_specific =
      some (parseRequestRateValue (bytes "abc")) := by
  have habc : strtol10 (bytes "abc") = none := by decide
  refine ⟨?_, ?_, ?_⟩
  · exact (claim_C5_amended (bytes "abc") [] 0 initState).1
      (fun r hr => by rw [habc] at hr; exact Option.noConfusion hr)
  · refine (claim_C5_amended (bytes "5/0") (bytes "0") 5 initState).2.1
      (by decide) (by decide) ?_
    intro r2 hr2
    have h0 : strtol10 (bytes "0") = some (0, []) := by decide
    rw [h0] at hr2
    injection hr2 with h
    subst h
    decide
  · exact (claim_C5_amended (bytes "abc") [] 0
      { initState with seen_specific_agent := true }).2.2 rfl rfl

/-- Claim C5, counterexample: `request-rate: abc` (no leading positive
integer, so by the claim it must be ignored entirely) is stored, and
`get_request_rate()` afterwards returns the default rate 1/1 instead of
nothing. -/
theorem claim_C5_counterexample :
    getRequestRate (runState (bytes "user-agent: FooBot\nrequest-rate: abc\n")
        [bytes "FooBot"] (bytes "http://foo.bar/x")) =
      some { requests := 1, seconds := 1 } := by decide

/-- Claim C6: pattern matching decodes `%HH` on the fly on both sides — a
`%` followed by two hex digits decodes to one byte and advances three
positions, anything else is one literal byte — and on a match the returned
priority is the full pattern length in bytes (each `%HH` counting as three),
`−1` on no match.  The concrete conjuncts check the spec's decode examples
(`%2F` ≡ `/`, `%E3%83%84` ≡ the raw UTF-8 of `ツ`, `%62%61%7A` ≡ `baz`). -/
theorem claim_C6 (path pattern rest : List Nat) (a b hi lo c : Nat) :
    (matchAllow path pattern = if Matches path pattern then (pattern.length : Int) else -1)
  ∧ (matchDisallow path pattern = if Matches path pattern then (pattern.length : Int) else -1)
  ∧ (hexDigitValue a = some hi → hexDigitValue b = some lo →
      decodePercentOrChar (37 :: a :: b :: rest) = (16 * hi + lo, 3))
  ∧ (hexDigitValue a = none → decodePercentOrChar (37 :: a :: b :: rest) = (37, 1))
  ∧ (hexDigitValue b = none → decodePercentOrChar (37 :: a :: b :: rest) = (37, 1))
  ∧ (c ≠ 37 → decodePercentOrChar (c :: rest) = (c, 1))
  ∧ Matches (bytes "/") (bytes "%2F") = true
  ∧ matchAllow (bytes "/") (bytes "%2F") = 3
  ∧ Matches [47, 227, 131, 132] (bytes "/%E3%83%84") = true
  ∧ matchAllow (bytes "/baz") (bytes "/%62%61%7A") = 10
  ∧ matchDisallow (bytes "/x") (bytes "/y") = -1 := by
  refine ⟨rfl, rfl, ?_, ?_, ?_, ?_, by decide, by decide, by decide, by decide, by decide⟩
  · intro ha hb
    simp [decodePercentOrChar, ha, hb]
  · intro ha
    simp [decodePercentOrChar, ha]
  · intro hb
    cases ha : hexDigitValue a <;> simp [decodePercentOrChar, ha, hb]
  · intro hc
    rcases rest with _ | ⟨x, _ | ⟨y, t⟩⟩ <;> simp [decodePercentOrChar, hc]

theorem claim_C6_witness :
    decodePercentOrChar (37 :: 50 :: 70 :: []) = (47, 3)
  ∧ decodePercentOrChar (37 :: 103 :: 70 :: []) = (37, 1)
  ∧ decodePercentOrChar (37 :: 50 :: 103 :: []) = (37, 1)
  ∧ decodePercentOrChar (47 :: 97 :: []) = (47, 1) := by
  refine ⟨?_, ?_, ?_, ?_⟩
  · exact (claim_C6 [] [] [] 50 70 2 15 0).2.2.1 (by decide) (by decide)
  · exact (claim_C6 [] [] [] 103 70 0 0 0).2.2.2.1 (by decide)
  · exact (claim_C6 [] [] [] 50 103 0 0 0).2.2.2.2.1 (by decide)
  · exact (claim_C6 [] [] (97 :: []) 0 0 0 0 47).2.2.2.2.2.1 (by decide)

/-- Claim C7: the claim states that URL path extraction always returns a
byte sequence beginning with `/` and that the matcher's internal assertion
is unreachable.  The code violates this for query-only inputs: for the URL
`?a` (and its scheme-full / protocol-relative variants) `GetPathParamsQuery`
returns `?a` itself, which does not begin with `/` — contradicting the
function's own documentation ("Result always starts with /") and firing the
`ROBOTS_ASSERT('/' == *path_)` in `InitUserAgentsAndPath`. -/
theorem claim_C7_code_behavior :
    GetPathParamsQuery (bytes "?a") = bytes "?a"
  ∧ ¬ pathStartsWithSlash (GetPathParamsQuery (bytes "?a"))
  ∧ GetPathParamsQuery (bytes "http://?a") = bytes "?a"
  ∧ GetPathParamsQuery (bytes "//?a") = bytes "?a"
  ∧ pathStartsWithSlash (GetPathParamsQuery (bytes ""))
  ∧ pathStartsWithSlash (GetPathParamsQuery (bytes "foo.bar"))
  ∧ pathStartsWithSlash (GetPathParamsQuery (bytes "#frag"))
  ∧ pathStartsWithSlash (GetPathParamsQuery (bytes "example.com?a")) := by
  refine ⟨by decide, by decide, by decide, by decide, by decide, by decide, by decide, by decide⟩

/-- Claim C8 (amended): `matching_line()` reports, within the winning scope
(specific if `ever_seen_specific_agent`, else global), the line number of
the higher-priority of the stored disallow and allow matches; when the two
stored matches have EQUAL priority it returns the Allow match's line number
(`HigherPriorityMatch(disallow, allow)` uses strict `>` with disallow as the
first argument, so ties fall to the second argument, Allow) — not
Disallow's line number as the claim states. -/
theorem claim_C8_amended (st : MatcherState) :
    (matchingLine st =
      if st.ever_seen_specific_agent then
        (if st.allow.specific.priority < st.disallow.specific.priority then
          st.disallow.specific.line else st.allow.specific.line)
      else
        (if st.allow.global.priority < st.disallow.global.priority then
          st.disallow.global.line else st.allow.global.line))
  ∧ (st.ever_seen_specific_agent = true →
      st.disallow.specific.priority = st.allow.specific.priority →
      matchingLine st = st.allow.specific.line)
  ∧ (st.ever_seen_specific_agent = false →
      st.disallow.global.priority = st.allow.global.priority →
      matchingLine st = st.allow.global.line) := by
  refine ⟨?_, ?_, ?_⟩
  · unfold matchingLine higherPriorityMatch
    split <;> split <;> rfl
  · intro h1 h2
    unfold matchingLine higherPriorityMatch
    rw [if_pos h1, if_neg (by omega)]
  · intro h1 h2
    unfold matchingLine higherPriorityMatch
    rw [if_neg (by simp [h1]), if_neg (by omega)]

theorem claim_C8_witness :
    matchingLine { ever_seen_specific_agent := true,
                   allow := { specific := { priority := 5, line := 7 } },
                   disallow := { specific := { priority := 5, line := 9 } } } = 7 :=
  (claim_C8_amended { ever_seen_specific_agent := true,
                      allow := { specific := { priority := 5, line := 7 } },
                      disallow := { specific := { priority := 5, line := 9 } } }).2.1 rfl rfl

/-- Claim C8, counterexample: after `allow: /a` (line 2) and `disallow: /a`
(line 3) both match `/ab` at equal priority 2 in FooBot's specific scope,
`matching_line()` returns 2 — Allow's line — not Disallow's line 3 as the
claim states. -/
theorem claim_C8_counterexample :
    matchingLine (runState (bytes "user-agent: FooBot\nallow: /a\ndisallow: /a\n")
        [bytes "FooBot"] (bytes "http://foo.bar/ab")) = 2
  ∧ (runState (bytes "user-agent: FooBot\nallow: /a\ndisallow: /a\n")
        [bytes "FooBot"] (bytes "http://foo.bar/ab")).allow.specific.line = 2
  ∧ (runState (bytes "user-agent: FooBot\nallow: /a\ndisallow: /a\n")
        [bytes "FooBot"] (bytes "http://foo.bar/ab")).disallow.specific.line = 3
  ∧ (runState (bytes "user-agent: FooBot\nallow: /a\ndisallow: /a\n")
        [bytes "FooBot"] (bytes "http://foo.bar/ab")).disallow.specific.priority =
      (runState (bytes "user-agent: FooBot\nallow: /a\ndisallow: /a\n")
        [bytes "FooBot"] (bytes "http://foo.bar/ab")).allow.specific.priority
  ∧ (runState (bytes "user-agent: FooBot\nallow: /a\ndisallow: /a\n")
        [bytes "FooBot"] (bytes "http://foo.bar/ab")).ever_seen_specific_agent = true := by
  refine ⟨by decide, by decide, by decide, by decide, by decide⟩

theorem step_init_of_no_agent (agents : List (List Nat)) (path : List Nat) (ev : Event)
    (h : ∀ line v, ev = Event.userAgent line v →
      isGlobalUserAgentValue v = false ∧
      ∀ a ∈ agents, equalsIgnoreCase (extractUserAgent v) a = false) :
    step agents path initState ev = initState := by
  cases ev with
  | userAgent line v =>
    have hv := h line v rfl
    have hfind : agents.find? (fun a => equalsIgnoreCase (extractUserAgent v) a) = none :=
      List.find?_eq_none.mpr (fun a ha => by simp [hv.2 a ha])
    simp [step, handleUserAgent, initState, hv.1, hfind]
  | allow line v => rfl
  | disallow line v => rfl
  | sitemap line v => rfl
  | crawlDelay line v => rfl
  | requestRate line rate => rfl
  | contentSignal line v => rfl
  | unknown line a v => rfl

theorem foldl_step_init (agents : List (List Nat)) (path : List Nat) (evs : List Event)
    (h : ∀ line v, Event.userAgent line v ∈ evs →
      isGlobalUserAgentValue v = false ∧
      ∀ a ∈ agents, equalsIgnoreCase (extractUserAgent v) a = false) :
    evs.foldl (step agents path) initState = initState := by
  induction evs with
  | nil => rfl
  | cons e t ih =>
    rw [List.foldl_cons,
      step_init_of_no_agent agents path e (fun line v hev => h line v (by rw [hev]; simp))]
    exact ih (fun line v hm => h line v (by simp [hm]))

/-- Claim C9: allow-by-default.  (1) On an empty body every URL is allowed
for every agent list.  (2) When no emitted user-agent line of the body is a
global `*` record and none matches (case-insensitively, after
`ExtractUserAgent`) any queried agent, every URL is allowed. -/
theorem claim_C9 (body : List Nat) (agents : List (List Nat)) (url : List Nat) :
    (allowedByRobots [] agents url = true)
  ∧ ((∀ line v, Event.userAgent line v ∈ parseEvents body →
        isGlobalUserAgentValue v = false ∧
        ∀ a ∈ agents, equalsIgnoreCase (extractUserAgent v) a = false) →
      allowedByRobots body agents url = true) := by
  constructor
  · rfl
  · intro h
    unfold allowedByRobots runState
    rw [foldl_step_init agents (GetPathParamsQuery url) (parseEvents body) h]
    rfl

theorem claim_C9_witness :
    allowedByRobots (bytes "user-agent: BarBot\ndisallow: /\n") [bytes "FooBot"]
      (bytes "http://foo.bar/x") = true := by
  refine (claim_C9 (bytes "user-agent: BarBot\ndisallow: /\n") [bytes "FooBot"]
    (bytes "http://foo.bar/x")).2 ?_
  intro line v hv
  have hpe : parseEvents (bytes "user-agent: BarBot\ndisallow: /\n") =
      [Event.userAgent 1 (bytes "BarBot"), Event.disallow 2 (bytes "/")] := by decide
  rw [hpe] at hv
  simp only [List.mem_cons, List.not_mem_nil, or_false] at hv
  rcases hv with hv | hv
  · rw [Event.userAgent.injEq] at hv
    rw [hv.2]
    refine ⟨by decide, ?_⟩
    intro a ha
    simp only [List.mem_singleton] at ha
    rw [ha]
    decide
  · exact absurd hv (by simp)

theorem findLastSlash_lt_length (v : List Nat) :
    ∀ s, findLastSlash v = some s → s < v.length := by
  induction v with
  | nil => intro s h; exact absurd h (by simp [findLastSlash])
  | cons c t ih =>
    intro s h
    rw [findLastSlash] at h
    cases ht : findLastSlash t with
    | some i =>
      rw [ht] at h
      have hsi : i + 1 = s := by injection h
      have hit : i < t.length := ih i ht
      simp only [List.length_cons]
      omega
    | none =>
      rw [ht] at h
      by_cases hc : (c == 47) = true
      · rw [if_pos hc] at h
        have h0 : (0 : Nat) = s := by injection h
        simp only [List.length_cons]
        omega
      · rw [if_neg hc] at h
        exact Option.noConfusion h

theorem updateAllowMatch_set (line : Nat) (pri : Int) (st : MatcherState)
    (ha : st.seen_specific_agent = true) (hb : st.allow.specific.priority < pri) :
    (updateAllowMatch line pri st).allow.specific = { priority := pri, line := line } := by
  unfold updateAllowMatch
  rw [if_pos ha, if_pos hb]

/-- Claim C10: when an Allow pattern ending in `index.htm`/`index.html` does
not match the path directly but its fallback (the prefix up to and including
the last `/`, with `$` appended) does, the recorded allow priority is the
fallback pattern's length — the position of the last `/` plus 2 — not the
original pattern's length; consequently such a fallback match can lose to a
Disallow match of greater length (concrete conjunct: `allow:
/foo/index.html` yields fallback priority 6, and `disallow: /%66oo/` with
priority 7 disallows `/foo/`). -/
theorem claim_C10 (path v : List Nat) (line : Nat) (s : Nat) (st : MatcherState)
    (h1 : Matches path v = false)
    (h2 : findLastSlash v = some s)
    (h3 : (bytes "/index.htm").isPrefixOf (v.drop s) = true)
    (h4 : Matches path (v.take (s + 1) ++ [36]) = true)
    (h5 : st.seen_specific_agent = true)
    (h6 : st.allow.specific.priority < (s : Int) + 2) :
    (handleAllow path line v st).allow.specific =
      { priority := (s : Int) + 2, line := line }
  ∧ allowedByRobots
      (bytes "user-agent: FooBot\nallow: /foo/index.html\ndisallow: /%66oo/\n")
      [bytes "FooBot"] (bytes "http://a/foo/") = false := by
  refine ⟨?_, by decide⟩
  have hs : s < v.length := findLastSlash_lt_length v s h2
  have hlen : (v.take (s + 1) ++ [36]).length = s + 2 := by
    rw [List.length_append, List.length_take]
    simp only [List.length_singleton]
    omega
  have hpri : matchAllow path (v.take (s + 1) ++ [36]) = (s : Int) + 2 := by
    rw [matchAllow, if_pos h4, hlen]
    push_cast
    ring
  have hm : matchAllow path v = -1 := by rw [matchAllow, if_neg (by simp [h1])]
  unfold handleAllow
  rw [if_neg (by simp [seenAnyAgent, h5])]
  rw [hm]
  simp only [h2, h3, hpri, if_true]
  norm_num
  rw [if_pos (show (0:Int) ≤ (s:Int) + 2 by omega)]
  exact updateAllowMatch_set line _ _ h5 h6

theorem claim_C10_witness :
    (handleAllow (bytes "/foo/") 2 (bytes "/foo/index.html")
      { initState with seen_specific_agent := true }).allow.specific =
      { priority := (4 : Int) + 2, line := 2 } :=
  (claim_C10 (bytes "/foo/") (bytes "/foo/index.html") 2 4
    { initState with seen_specific_agent := true }
    (by decide) (by decide) (by decide) (by decide) rfl (by decide)).1
